import Mathlib

/-
Verification of the registration-flow core of the gmail-register repository.

The Python sources under `app/` are shallowly embedded:

* randomness (module `random`) is modelled by an infinite stream of naturals
  `RStream`; each primitive draw reads one position of the stream, and all
  theorems quantify over every stream;
* page and element interactions (Playwright calls) are modelled by
  environment records whose fields give the outcome of each call site:
  a query yields `Except Unit v` (`.error ()` models the call raising),
  an action yields `Except Unit Unit`;
* Python `try/except` blocks are translated to explicit matches on these
  `Except` values, so "the function never raises" becomes "the translated
  function returns `.ok _` for every environment";
* `time.sleep` / `wait_for_timeout` delays have no observable effect in this
  model and are elided;
* strings are modelled as `List Char` where character-level reasoning is
  needed and as `String` elsewhere.
-/

/-- An infinite stream of naturals modelling the outputs of Python's
`random` module; each random primitive consumes designated positions. -/
abbrev RStream := Nat → Nat

/-- `random.choice(seq)` for a nonempty `seq`: the draw `n` picks
`seq[n % len(seq)]` (the default `d` is never used on nonempty lists). -/
def choice (l : List α) (d : α) (n : Nat) : α := l.getD (n % l.length) d

/-- `random.randint(a, b)` (both bounds inclusive): `a + n % (b - a + 1)`. -/
def randint (a b n : Nat) : Nat := a + n % (b - a + 1)

theorem choice_mem (l : List α) (d : α) (n : Nat) (h : l ≠ []) : choice l d n ∈ l := by
  have hlen : 0 < l.length := List.length_pos.mpr h
  have hlt : n % l.length < l.length := Nat.mod_lt _ hlen
  unfold choice
  rw [List.getD_eq_getElem l d hlt]
  exact l.getElem_mem hlt

theorem randint_le (a b n : Nat) : a ≤ randint a b n := Nat.le_add_right a _

theorem randint_le_upper (a b n : Nat) (h : a ≤ b) : randint a b n ≤ b := by
  unfold randint
  have : n % (b - a + 1) < b - a + 1 := Nat.mod_lt _ (Nat.succ_pos _)
  omega

/-- `random.shuffle`'s elementary step: swap positions `i` and `j`
(in-range swaps only; Python indexing is always in range here). -/
def listSwap (l : List α) (i j : Nat) : List α :=
  if h : i < l.length ∧ j < l.length then
    (l.set i (l.get ⟨j, h.2⟩)).set j (l.get ⟨i, h.1⟩)
  else l

theorem count_set_add [DecidableEq α] (l : List α) (n : Nat) (h : n < l.length) (c x : α) :
    (l.set n c).count x + (if l.get ⟨n, h⟩ = x then 1 else 0)
      = l.count x + (if c = x then 1 else 0) := by
  have hdecomp : l = l.take n ++ l.get ⟨n, h⟩ :: l.drop (n + 1) := by
    conv_lhs => rw [← List.take_append_drop n l]
    rw [← List.get_drop_eq_drop l n h]
    simp [List.get_eq_getElem]
  have h2 : l.count x
      = (l.take n).count x + ((l.drop (n + 1)).count x + (if l.get ⟨n, h⟩ = x then 1 else 0)) := by
    conv_lhs => rw [hdecomp]
    rw [List.count_append, List.count_cons]
    simp [beq_iff_eq]
  rw [List.set_eq_take_cons_drop c h, List.count_append, List.count_cons, h2]
  simp only [beq_iff_eq]
  omega

theorem listSwap_perm [DecidableEq α] (l : List α) (i j : Nat) :
    List.Perm (listSwap l i j) l := by
  unfold listSwap
  split
  case isTrue h =>
    obtain ⟨hi, hj⟩ := h
    rw [List.perm_iff_count]
    intro x
    by_cases hij : i = j
    · subst hij
      rw [List.set_set]
      have e := count_set_add l i hi (l.get ⟨i, hi⟩) x
      omega
    · have hj' : j < (l.set i (l.get ⟨j, hj⟩)).length := by simpa using hj
      have e1 := count_set_add (l.set i (l.get ⟨j, hj⟩)) j hj' (l.get ⟨i, hi⟩) x
      have e2 := count_set_add l i hi (l.get ⟨j, hj⟩) x
      have hg : (l.set i (l.get ⟨j, hj⟩)).get ⟨j, hj'⟩ = l.get ⟨j, hj⟩ := by
        simp only [List.get_eq_getElem]
        rw [List.getElem_set_ne (by omega)]
      rw [hg] at e1
      omega
  case isFalse => exact List.Perm.refl l

/-- The descending Fisher-Yates loop of `random.shuffle`:
`for i in reversed(range(1, len(x))): j = draw(i) % (i+1); swap x[i], x[j]`.
The draw used at index `i` is `g i`. -/
def shuffleAux (g : RStream) : List α → Nat → List α
  | l, 0 => l
  | l, i + 1 => shuffleAux g (listSwap l (i + 1) (g (i + 1) % (i + 2))) i

/-- `random.shuffle(x)` (Fisher-Yates over the whole list). -/
def pyShuffle (g : RStream) (l : List α) : List α := shuffleAux g l (l.length - 1)

theorem shuffleAux_perm [DecidableEq α] (g : RStream) (n : Nat) (l : List α) :
    List.Perm (shuffleAux g l n) l := by
  induction n generalizing l with
  | zero => exact List.Perm.refl l
  | succ i ih =>
      exact List.Perm.trans (ih (listSwap l (i + 1) (g (i + 1) % (i + 2))))
        (listSwap_perm l (i + 1) (g (i + 1) % (i + 2)))

theorem pyShuffle_perm [DecidableEq α] (g : RStream) (l : List α) :
    List.Perm (pyShuffle g l) l := shuffleAux_perm g (l.length - 1) l

theorem pyShuffle_mem [DecidableEq α] (g : RStream) (l : List α) (x : α) (h : x ∈ l) :
    x ∈ pyShuffle g l := (pyShuffle_perm g l).mem_iff.mpr h

theorem pyShuffle_length [DecidableEq α] (g : RStream) (l : List α) :
    (pyShuffle g l).length = l.length := (pyShuffle_perm g l).length_eq

/- ----------------------------------------------------------------
app/generator.py
---------------------------------------------------------------- -/

/-- `string.ascii_uppercase`. -/
def ascii_uppercase : List Char := "ABCDEFGHIJKLMNOPQRSTUVWXYZ".toList

/-- `string.ascii_lowercase`. -/
def ascii_lowercase : List Char := "abcdefghijklmnopqrstuvwxyz".toList

/-- `string.digits`. -/
def ascii_digits : List Char := "0123456789".toList

/-- `symbols = "@"` from `generate_password` / `ensure_password_has_special`
("keep browser-safe symbols"). -/
def PASSWORD_SYMBOLS : List Char := ['@']

/-- `generate_password(length)` from app/generator.py: one mandatory draw from
each character class, `max(4, length - 4)` further draws from the union, then
`random.shuffle`.  Stream positions: `g 0..3` the mandatory draws, `g (4+i)`
the filler draws, and the shuffle consumes the stream after those. -/
def generate_password (g : RStream) (length : Int) : List Char :=
  let all_chars := ascii_uppercase ++ ascii_lowercase ++ ascii_digits ++ PASSWORD_SYMBOLS
  let k := (max 4 (length - 4)).toNat
  let password :=
    [choice ascii_uppercase 'A' (g 0), choice ascii_lowercase 'a' (g 1),
     choice ascii_digits '0' (g 2), choice PASSWORD_SYMBOLS '@' (g 3)]
    ++ (List.range k).map (fun i => choice all_chars 'a' (g (4 + i)))
  pyShuffle (fun i => g (4 + k + i)) password

/-- `ensure_password_has_special(password)` from app/generator.py. -/
def ensure_password_has_special (g : RStream) (password : List Char) : List Char :=
  if password.any (fun ch => PASSWORD_SYMBOLS.contains ch) then password
  else if password.isEmpty then generate_password g 10
  else
    let insert_at := randint 0 password.length (g 0)
    password.take insert_at ++ [choice PASSWORD_SYMBOLS '@' (g 1)] ++ password.drop insert_at

theorem generate_password_length (g : RStream) (length : Int) :
    (generate_password g length).length = 4 + (max 4 (length - 4)).toNat := by
  unfold generate_password
  rw [pyShuffle_length]
  simp
  omega

/-- C7: for every requested length, `generate_password(length)` contains at
least one uppercase letter, one lowercase letter, one digit and one symbol
from the allowed symbol set, and its total length is at least the requested
minimum. -/
theorem c7_generate_password_complexity (g : RStream) (length : Int) :
    (∃ c ∈ generate_password g length, c ∈ ascii_uppercase) ∧
    (∃ c ∈ generate_password g length, c ∈ ascii_lowercase) ∧
    (∃ c ∈ generate_password g length, c ∈ ascii_digits) ∧
    (∃ c ∈ generate_password g length, c ∈ PASSWORD_SYMBOLS) ∧
    length ≤ ((generate_password g length).length : Int) := by
  refine ⟨?_, ?_, ?_, ?_, ?_⟩
  case _ =>
    refine ⟨choice ascii_uppercase 'A' (g 0), ?_, choice_mem _ _ _ (by decide)⟩
    unfold generate_password
    exact pyShuffle_mem _ _ _ (by simp)
  case _ =>
    refine ⟨choice ascii_lowercase 'a' (g 1), ?_, choice_mem _ _ _ (by decide)⟩
    unfold generate_password
    exact pyShuffle_mem _ _ _ (by simp)
  case _ =>
    refine ⟨choice ascii_digits '0' (g 2), ?_, choice_mem _ _ _ (by decide)⟩
    unfold generate_password
    exact pyShuffle_mem _ _ _ (by simp)
  case _ =>
    refine ⟨choice PASSWORD_SYMBOLS '@' (g 3), ?_, choice_mem _ _ _ (by decide)⟩
    unfold generate_password
    exact pyShuffle_mem _ _ _ (by simp)
  case _ =>
    rw [generate_password_length]
    omega

theorem generate_password_has_symbol (g : RStream) (length : Int) :
    (generate_password g length).any (fun ch => PASSWORD_SYMBOLS.contains ch) = true := by
  obtain ⟨c, hc, hcs⟩ := (c7_generate_password_complexity g length).2.2.2.1
  rw [List.any_eq_true]
  exact ⟨c, hc, List.elem_eq_true_of_mem hcs⟩

theorem ensure_password_has_special_has_symbol (g : RStream) (p : List Char) :
    (ensure_password_has_special g p).any (fun ch => PASSWORD_SYMBOLS.contains ch) = true := by
  unfold ensure_password_has_special
  split
  case isTrue h => exact h
  case isFalse h =>
    split
    case isTrue h2 => exact generate_password_has_symbol g 10
    case isFalse h2 =>
      rw [List.any_eq_true]
      refine ⟨choice PASSWORD_SYMBOLS '@' (g 1), by simp, ?_⟩
      exact List.elem_eq_true_of_mem (choice_mem PASSWORD_SYMBOLS '@' (g 1) (by decide))

/-- C9: `ensure_password_has_special` is idempotent — applying it to its own
output (with arbitrary fresh randomness) returns that output unchanged. -/
theorem c9_ensure_password_has_special_idempotent (g g2 : RStream) (p : List Char) :
    ensure_password_has_special g2 (ensure_password_has_special g p)
      = ensure_password_has_special g p := by
  conv_lhs => rw [ensure_password_has_special]
  rw [if_pos (ensure_password_has_special_has_symbol g p)]

/-- `FIRST_NAMES` pool from app/generator.py. -/
def FIRST_NAMES : List String :=
  ["An", "Anh", "Bình", "Chi", "Dũng", "Duy", "Giang", "Hà", "Hải", "Hằng",
   "Hiếu", "Hoa", "Hòa", "Hồng", "Hưng", "Huy", "Khánh", "Kiên", "Lan", "Linh",
   "Loan", "Long", "Mai", "Minh", "My", "Nam", "Nga", "Ngân", "Ngọc", "Nhung",
   "Phong", "Phúc", "Phương", "Quang", "Quyên", "Sơn", "Thảo", "Thắng", "Thành",
   "Thịnh", "Thu", "Thủy", "Trang", "Trí", "Trinh", "Trọng", "Tú", "Tuấn", "Tùng",
   "Tuyết", "Uyên", "Vân", "Vinh", "Vy"]

/-- `LAST_NAMES` pool from app/generator.py. -/
def LAST_NAMES : List String :=
  ["Nguyễn", "Trần", "Lê", "Phạm", "Hoàng", "Huỳnh", "Phan", "Vũ", "Võ", "Đặng",
   "Bùi", "Đỗ", "Hồ", "Ngô", "Dương", "Lý"]

/-- Models `unicodedata.normalize("NFKD", ·)` followed by
`.encode("ascii", "ignore")`, character by character, for the characters that
occur in the name pools: ASCII characters map to themselves; a Vietnamese
letter with combining diacritics decomposes under NFKD into its ASCII base
letter plus combining marks, and the ascii/ignore encoding drops the marks,
leaving the base letter; `Đ` (U+0110, no canonical decomposition) is dropped
entirely by the ascii/ignore encoding. -/
def nfkdAsciiChar (c : Char) : Option Char :=
  if c.toNat < 128 then some c
  else
    match c with
    | 'à' | 'á' | 'ả' | 'ạ' | 'ằ' | 'ắ' | 'ặ' | 'â' | 'ầ' | 'ấ' => some 'a'
    | 'ê' | 'ế' | 'ễ' => some 'e'
    | 'ì' | 'í' | 'ị' => some 'i'
    | 'ò' | 'ọ' | 'ồ' | 'ỗ' | 'ô' | 'õ' | 'ơ' => some 'o'
    | 'ú' | 'ù' | 'ủ' | 'ũ' | 'ư' => some 'u'
    | 'ý' | 'ỳ' => some 'y'
    | _ => none

/-- `_slugify(value)` from app/generator.py: NFKD-normalize, drop non-ASCII,
lowercase, keep only alphanumeric characters. -/
def _slugify (s : List Char) : List Char :=
  ((s.filterMap nfkdAsciiChar).map Char.toLower).filter Char.isAlphanum

/-- The `# Optionally insert a dot` block of `generate_username`: when the
`random.random() < 0.4` draw fires (modelled by `g 0 % 10 < 4`) and
`len(base) > 6`, insert a dot at `random.randint(3, min(6, len(base) - 3))`
(drawn from `g 1`). -/
def insertDot (g : RStream) (base : List Char) : List Char :=
  let split := randint 3 (min 6 (base.length - 3)) (g 1)
  if g 0 % 10 < 4 ∧ 6 < base.length then base.take split ++ '.' :: base.drop split
  else base

/-- `generate_username(first, last)` from app/generator.py: slugify and
concatenate the names, optionally insert a dot, append a numeric suffix of
`random.randint(6, 9)` digits (length draw `g 2`, digit draws `g (3 + i)`),
and truncate to 30 characters. -/
def generate_username (g : RStream) (first last : List Char) : List Char :=
  let base := insertDot g (_slugify first ++ _slugify last)
  let suffix_length := randint 6 9 (g 2)
  (base ++ (List.range suffix_length).map (fun i => choice ascii_digits '0' (g (3 + i)))).take 30

/-- A character allowed by the spec pattern for usernames: a lowercase ASCII
letter, an ASCII digit, or a dot. -/
def usernameChar (c : Char) : Bool :=
  ('a' ≤ c && c ≤ 'z') || ('0' ≤ c && c ≤ '9') || c == '.'

/-- A character a slug can contain: lowercase ASCII letter or digit. -/
def baseChar (c : Char) : Bool :=
  ('a' ≤ c && c ≤ 'z') || ('0' ≤ c && c ≤ '9')

theorem baseChar_usernameChar (c : Char) (h : baseChar c = true) : usernameChar c = true := by
  unfold baseChar at h
  unfold usernameChar
  rcases Bool.or_eq_true_iff.mp h with h1 | h1 <;> simp [h1]

theorem first_names_slug_ok :
    FIRST_NAMES.all (fun s => (_slugify s.toList).all baseChar) = true := by decide

theorem last_names_slug_ok :
    LAST_NAMES.all (fun s => (_slugify s.toList).all baseChar) = true := by decide

theorem insertDot_all (g : RStream) (base : List Char) (hb : base.all baseChar = true) :
    (insertDot g base).all usernameChar = true := by
  have hmem : ∀ x ∈ base, usernameChar x = true := fun x hx =>
    baseChar_usernameChar x (List.all_eq_true.mp hb x hx)
  simp only [insertDot]
  split
  case isTrue h =>
    rw [List.all_append, Bool.and_eq_true, List.all_cons, Bool.and_eq_true]
    refine ⟨?_, by decide, ?_⟩
    · exact List.all_eq_true.mpr (fun x hx => hmem x (List.mem_of_mem_take hx))
    · exact List.all_eq_true.mpr (fun x hx => hmem x (List.mem_of_mem_drop hx))
  case isFalse h => exact List.all_eq_true.mpr hmem

/-- C8: for every pair of names drawn from the name pools (Vietnamese
diacritics included) and every stream of random draws, `generate_username`
yields a string matching the pattern of lowercase ASCII letters, digits and
dots, nonempty and at most 30 characters long. -/
theorem c8_generate_username_charset (g : RStream) (first last : String)
    (h1 : first ∈ FIRST_NAMES) (h2 : last ∈ LAST_NAMES) :
    (generate_username g first.toList last.toList).all usernameChar = true ∧
    1 ≤ (generate_username g first.toList last.toList).length ∧
    (generate_username g first.toList last.toList).length ≤ 30 := by
  have hf : (_slugify first.toList).all baseChar = true := by
    have := List.all_eq_true.mp first_names_slug_ok first h1
    simpa using this
  have hl : (_slugify last.toList).all baseChar = true := by
    have := List.all_eq_true.mp last_names_slug_ok last h2
    simpa using this
  have hbase : ((_slugify first.toList ++ _slugify last.toList).all baseChar) = true := by
    rw [List.all_append, Bool.and_eq_true]
    exact ⟨hf, hl⟩
  have hb1 := insertDot_all g (_slugify first.toList ++ _slugify last.toList) hbase
  have hdigits : ∀ i : Nat, usernameChar (choice ascii_digits '0' (g (3 + i))) = true := by
    intro i
    have hmem := choice_mem ascii_digits '0' (g (3 + i)) (by decide)
    have hall : ascii_digits.all usernameChar = true := by decide
    exact List.all_eq_true.mp hall _ hmem
  refine ⟨?_, ?_, ?_⟩
  · simp only [generate_username]
    refine List.all_eq_true.mpr (fun x hx => ?_)
    have hx2 := List.mem_of_mem_take hx
    rcases List.mem_append.mp hx2 with hx3 | hx3
    · exact List.all_eq_true.mp hb1 x hx3
    · obtain ⟨i, hi, hval⟩ := List.mem_map.mp hx3
      rw [← hval]
      exact hdigits i
  · simp only [generate_username, List.length_take, List.length_append, List.length_map,
      List.length_range]
    have h6 : 6 ≤ randint 6 9 (g 2) := randint_le 6 9 (g 2)
    omega
  · simp only [generate_username, List.length_take]
    omega

theorem c8_generate_username_charset_witness :
    ("An" ∈ FIRST_NAMES ∧ "Nguyễn" ∈ LAST_NAMES) ∧
    ((generate_username (fun _ => 0) "An".toList "Nguyễn".toList).all usernameChar = true ∧
     1 ≤ (generate_username (fun _ => 0) "An".toList "Nguyễn".toList).length ∧
     (generate_username (fun _ => 0) "An".toList "Nguyễn".toList).length ≤ 30) :=
  ⟨⟨by decide, by decide⟩,
   c8_generate_username_charset (fun _ => 0) "An" "Nguyễn" (by decide) (by decide)⟩

/- ----------------------------------------------------------------
Exception-aware embedding of the page-interaction layer.

Every fallible Playwright call is a field of an environment record with
result type `Except Unit v`; `.error ()` models the call raising.  A Python
`try: ... except Exception: return d` is the combinator `pyTry`.
---------------------------------------------------------------- -/

/-- Result of a fallible page or element call. -/
abbrev Exc (α : Type) := Except Unit α

/-- `try: <body> except Exception: return d`. -/
def pyTry (x : Exc α) (d : α) : Exc α :=
  match x with
  | .error _ => .ok d
  | r => r

theorem pyTry_ok (x : Exc α) (d : α) : ∃ b, pyTry x d = .ok b := by
  unfold pyTry
  cases x with
  | error e => exact ⟨d, rfl⟩
  | ok a => exact ⟨a, rfl⟩

/-- A page element as the human-interaction primitives see it: each field is
the outcome of the corresponding Playwright call on this element. -/
structure Elem where
  boundingBox : Exc (Option Unit)
  mouseOps : Exc Unit
  clearOp : Exc Unit
  typeOp : Nat → Exc Unit
  fillOp : Exc Unit
  rawClick : Exc Unit
  insertText : Exc Unit
  selectOption : Exc Unit

/-- `human_click(page, locator_or_element)` from app/human_actions.py: read the
element's bounding box (`None` yields False), run the Bezier mouse path and the
press/hold/release sequence, return True; any exception yields False.  The
Bezier/noise computation is pure arithmetic and cannot raise, so the fallible
calls are the bounding-box read and the mouse operations. -/
def human_click (e : Elem) : Exc Bool :=
  pyTry (do
    let b ← e.boundingBox
    match b with
    | none => pure false
    | some _ => do
        e.mouseOps
        pure true) false

/-- The `for char in value: field.type(char)` loop of `fill_slowly`, typing
characters `i, i+1, ...` (`n` characters remain). -/
def typeFrom (e : Elem) : Nat → Nat → Exc Unit
  | _, 0 => pure ()
  | i, n + 1 => do
      e.typeOp i
      typeFrom e (i + 1) n

/-- `fill_slowly(page, field, value, ...)` from app/human_actions.py:
click (result ignored), clear, type character by character; any exception
yields False. -/
def fill_slowly (e : Elem) (value : List Char) : Exc Bool :=
  pyTry (do
    let _ ← human_click e
    e.clearOp
    typeFrom e 0 value.length
    pure true) false

/-- `fill_first_present_slowly`'s selector loop: each selector lookup is
wrapped in `try: ... except: continue`. -/
def ffpsAux (loc : Nat → Exc Elem) (value : List Char) : Nat → Nat → Exc Bool
  | _, 0 => pure false
  | i, n + 1 =>
      match loc i with
      | .error _ => ffpsAux loc value (i + 1) n
      | .ok e =>
          match fill_slowly e value with
          | .ok true => pure true
          | .ok false => ffpsAux loc value (i + 1) n
          | .error _ => ffpsAux loc value (i + 1) n

/-- `fill_first_present_slowly(page, selectors, value)` from
app/human_actions.py (`numSels` is the length of the selector list). -/
def fill_first_present_slowly (loc : Nat → Exc Elem) (numSels : Nat)
    (value : List Char) : Exc Bool :=
  if value.isEmpty then pure false else ffpsAux loc value 0 numSels

/-- Platform/clipboard context of `paste_text_via_clipboard`. -/
structure ClipEnv where
  clipboardAvailable : Bool
  isWindows : Bool
  copyOp : Exc Unit
  pressPaste : Exc Unit

/-- `paste_text_via_clipboard(page, field, text)` from app/human_actions.py:
raw click, guarded clear, then Windows clipboard paste with fallback to
direct text insertion; any escaping exception yields False. -/
def paste_text_via_clipboard (E : ClipEnv) (e : Elem) (_text : List Char) : Exc Bool :=
  pyTry (do
    e.rawClick
    let _ ← pyTry e.clearOp ()
    if E.clipboardAvailable && E.isWindows then
      match (do E.copyOp; E.pressPaste : Exc Unit) with
      | .ok _ => pure true
      | .error _ => do
          e.insertText
          pure true
    else do
      e.insertText
      pure true) false

/- ----------------------------------------------------------------
app/steps.py: click_next
---------------------------------------------------------------- -/

/-- The candidate labels tried by `click_next`. -/
def NEXT_LABELS : List String :=
  ["Next", "Tiếp theo", "Siguiente", "Suivant", "Weiter", "Avanti", "Далее"]

/-- Page environment of one `click_next` invocation: `count li k` is the
element count of the `k`-th selector kind (role button / `button:has-text` /
`div[role=button]`) for label index `li`; `btn li k` is its `.first`. -/
structure ClickNextEnv where
  count : Nat → Nat → Exc Nat
  btn : Nat → Nat → Elem

/-- The inner selector loop of `click_next` for one label. -/
def clickNextKinds (E : ClickNextEnv) (li : Nat) : Nat → Nat → Exc Bool
  | _, 0 => pure false
  | k, n + 1 => do
      let c ← E.count li k
      if 0 < c then do
        let _ ← human_click (E.btn li k)
        pure true
      else clickNextKinds E li (k + 1) n

/-- The label loop of `click_next`: each label's selector loop runs inside
`try: ... except Exception: continue`; if no label matches, the function
raises `RuntimeError` (modelled by `.error ()`). -/
def clickNextLabels (E : ClickNextEnv) : Nat → Nat → Exc Unit
  | _, 0 => .error ()
  | li, n + 1 =>
      match clickNextKinds E li 0 3 with
      | .ok true => .ok ()
      | .ok false => clickNextLabels E (li + 1) n
      | .error _ => clickNextLabels E (li + 1) n

/-- `click_next(page)` from app/steps.py. -/
def click_next (E : ClickNextEnv) : Exc Unit :=
  clickNextLabels E 0 NEXT_LABELS.length

/- ----------------------------------------------------------------
app/steps.py: field helpers
---------------------------------------------------------------- -/

/-- A labelled field: the result of `page.get_by_label(label).count()` and the
`.first` element. -/
structure LabelField where
  count : Exc Nat
  elem : Elem

/-- `fill_by_label_if_present(page, field_label, value)` from app/steps.py:
if the label is present, `fill_slowly` it, falling back to a raw `.fill` when
`fill_slowly` raises (it cannot); any escaping exception yields False. -/
def fill_by_label_if_present (L : LabelField) (value : List Char) : Exc Bool :=
  pyTry (do
    let c ← L.count
    if 0 < c then
      match fill_slowly L.elem value with
      | .ok b => pure b
      | .error _ => do
          L.elem.fillOp
          pure true
    else pure false) false

/-- `first_present_label(page, labels)` from app/steps.py: return the index of
the first label whose `get_by_label` count is positive; each check is wrapped
in `try: ... except: continue`. -/
def first_present_label (counts : Nat → Exc Nat) : Nat → Nat → Exc (Option Nat)
  | _, 0 => pure none
  | i, n + 1 =>
      match counts i with
      | .error _ => first_present_label counts (i + 1) n
      | .ok c =>
          if 0 < c then pure (some i) else first_present_label counts (i + 1) n

/- ----------------------------------------------------------------
app/steps.py: choose_month
---------------------------------------------------------------- -/

/-- Page environment of `choose_month`.  The opener loop iterates four slots
`s` (two labels x two opener lookups); the three in-dropdown approaches and
the `select`-element fallback are indexed per slot / per candidate. -/
structure ChooseMonthEnv where
  openerCount : Nat → Exc Nat
  openerElem : Nat → Elem
  monthTextCount : Nat → Nat → Exc Nat
  monthTextElem : Nat → Nat → Elem
  optionsCount : Nat → Exc Nat
  nthOptionElem : Nat → Elem
  ariaCount : Nat → Exc Nat
  ariaElem : Nat → Elem
  selCount : Nat → Exc Nat
  selOption : Nat → Exc Unit

/-- Approach 1 of `choose_month`: find the month option by text, each
candidate text wrapped in `try: ... except: continue`. -/
def chooseMonthTexts (E : ChooseMonthEnv) (s : Nat) : Nat → Nat → Exc Bool
  | _, 0 => pure false
  | t, n + 1 =>
      match (do
        let c ← E.monthTextCount s t
        if 0 < c then do
          let _ ← human_click (E.monthTextElem s t)
          pure true
        else pure false : Exc Bool) with
      | .ok true => pure true
      | .ok false => chooseMonthTexts E s (t + 1) n
      | .error _ => chooseMonthTexts E s (t + 1) n

/-- The middle `try: ... except: pass` of `choose_month` (the three
approaches after the dropdown was opened); `Bool` records whether one of
them returned True. -/
def chooseMonthMid (E : ChooseMonthEnv) (s month_idx : Nat) : Exc Bool :=
  pyTry (do
    let a1 ← chooseMonthTexts E s 0 3
    if a1 then pure true
    else do
      let cnt ← E.optionsCount s
      if month_idx ≤ cnt then do
        let _ ← human_click (E.nthOptionElem s)
        pure true
      else do
        let a3 ← pyTry (do
          let c ← E.ariaCount s
          if 0 < c then do
            let _ ← human_click (E.ariaElem s)
            pure true
          else pure false) false
        pure a3) false

/-- The opener loop of `choose_month` over the four slots, each wrapped in
`try: ... except Exception: continue`. -/
def chooseMonthOpeners (E : ChooseMonthEnv) (month_idx : Nat) : Nat → Nat → Exc Bool
  | _, 0 => pure false
  | s, n + 1 =>
      match (do
        let c ← E.openerCount s
        if 0 < c then do
          let _ ← human_click (E.openerElem s)
          chooseMonthMid E s month_idx
        else pure false : Exc Bool) with
      | .ok true => pure true
      | .ok false => chooseMonthOpeners E month_idx (s + 1) n
      | .error _ => chooseMonthOpeners E month_idx (s + 1) n

/-- The `select`-element fallback loop of `choose_month`. -/
def chooseMonthSelects (E : ChooseMonthEnv) : Nat → Nat → Exc Bool
  | _, 0 => pure false
  | s, n + 1 =>
      match (do
        let c ← E.selCount s
        if 0 < c then do
          E.selOption s
          pure true
        else pure false : Exc Bool) with
      | .ok true => pure true
      | .ok false => chooseMonthSelects E (s + 1) n
      | .error _ => chooseMonthSelects E (s + 1) n

/-- `choose_month(page, month_label, month_idx)` from app/steps.py. -/
def choose_month (E : ChooseMonthEnv) (month_idx : Nat) : Exc Bool :=
  pyTry (do
    let r ← chooseMonthOpeners E month_idx 0 4
    if r then pure true
    else chooseMonthSelects E 0 4) false

/- ----------------------------------------------------------------
app/steps.py: pick_gender_any
---------------------------------------------------------------- -/

/-- Page environment of `pick_gender_any`: four dropdown openers, eight
option lookups (four texts x two methods, flattened), a keyboard fallback. -/
structure GenderEnv where
  openerCount : Nat → Exc Nat
  openerElem : Nat → Elem
  optCount : Nat → Exc Nat
  optElem : Nat → Elem
  keyPress : Exc Unit

/-- The dropdown-opener loop of `pick_gender_any`; the count calls are not
individually guarded, so an exception escapes to the function's outer
handler. -/
def genderOpeners (E : GenderEnv) : Nat → Nat → Exc Bool
  | _, 0 => pure false
  | i, n + 1 => do
      let c ← E.openerCount i
      if 0 < c then do
        let _ ← human_click (E.openerElem i)
        pure true
      else genderOpeners E (i + 1) n

/-- The option loop of `pick_gender_any`, each lookup wrapped in
`try: ... except: continue`. -/
def genderOptions (E : GenderEnv) : Nat → Nat → Exc Bool
  | _, 0 => pure false
  | m, n + 1 =>
      match (do
        let c ← E.optCount m
        if 0 < c then do
          let _ ← human_click (E.optElem m)
          pure true
        else pure false : Exc Bool) with
      | .ok true => pure true
      | .ok false => genderOptions E (m + 1) n
      | .error _ => genderOptions E (m + 1) n

/-- `pick_gender_any(page)` from app/steps.py. -/
def pick_gender_any (E : GenderEnv) : Exc Bool :=
  pyTry (do
    let _ ← genderOpeners E 0 4
    let r ← genderOptions E 0 8
    if r then pure true
    else
      match E.keyPress with
      | .ok _ => pure true
      | .error _ => pure false) false

/- ----------------------------------------------------------------
app/steps.py: maybe_fill_basic_info
---------------------------------------------------------------- -/

/-- `str(n)` for a natural number. -/
def natStr (n : Nat) : List Char := (toString n).toList

/-- Page environment of `maybe_fill_basic_info`.  Sub-environments that the
body consults once per retry attempt are indexed by the attempt number; the
day/year label fields are additionally indexed by the label
`first_present_label` found. -/
structure BasicEnv where
  waitCount : Nat → Nat → Exc Nat
  cm : Nat → ChooseMonthEnv
  daySelCount : Nat → Nat → Exc Nat
  daySelElem : Nat → Nat → Elem
  dayLabelCounts : Nat → Nat → Exc Nat
  dayLabelField : Nat → Option Nat → LabelField
  yearLabelCounts : Nat → Nat → Exc Nat
  yearField : Nat → Option Nat → LabelField
  yearFallback : Nat → Option Nat → LabelField
  gender : Nat → GenderEnv
  cn : ClickNextEnv
  todayYear : Nat
  g : RStream

/-- The page-arrival wait loop of `maybe_fill_basic_info` (10 rounds, three
short-circuited count checks per round; counts are not guarded and can
escape to the outer handler). -/
def basicWait (E : BasicEnv) : Nat → Nat → Exc Unit
  | _, 0 => pure ()
  | r, n + 1 => do
      let c0 ← E.waitCount r 0
      if 0 < c0 then pure () else do
      let c1 ← E.waitCount r 1
      if 0 < c1 then pure () else do
      let c2 ← E.waitCount r 2
      if 0 < c2 then pure () else basicWait E (r + 1) n

/-- The day-selector loop of `maybe_fill_basic_info` (four selectors, each
wrapped in `try: ... except: continue`; `ok_day` is set by a positive count
regardless of the fill outcome). -/
def dayLoop (E : BasicEnv) (a : Nat) (value : List Char) : Nat → Nat → Exc Bool
  | _, 0 => pure false
  | i, n + 1 =>
      match (do
        let c ← E.daySelCount a i
        if 0 < c then do
          let _ ← fill_slowly (E.daySelElem a i) value
          pure true
        else pure false : Exc Bool) with
      | .ok true => pure true
      | .ok false => dayLoop E a value (i + 1) n
      | .error _ => dayLoop E a value (i + 1) n

/-- One-attempt body and retry loop of `maybe_fill_basic_info` (three
attempts; stop early when month, day, year and gender all succeeded). -/
def basicAttempts (E : BasicEnv) (dayStr yearStr : List Char) (midx : Nat) :
    Nat → Nat → Exc Unit
  | _, 0 => pure ()
  | a, n + 1 => do
      let okMonth ← choose_month (E.cm a) midx
      let okDay ← do
        let d1 ← dayLoop E a dayStr 0 4
        if d1 then pure true
        else do
          let lab ← first_present_label (E.dayLabelCounts a) 0 2
          fill_by_label_if_present (E.dayLabelField a lab) dayStr
      let okYear ← do
        let ylab ← first_present_label (E.yearLabelCounts a) 0 2
        let y1 ← pyTry (do
          let c ← (E.yearField a ylab).count
          if 0 < c then fill_slowly (E.yearField a ylab).elem yearStr
          else pure false) false
        if y1 then pure true
        else do
          let _ ← fill_by_label_if_present (E.yearFallback a ylab) yearStr
          pure true
      let okGender ← pick_gender_any (E.gender a)
      if okMonth && okDay && okYear && okGender then pure ()
      else basicAttempts E dayStr yearStr midx (a + 1) n

/-- `maybe_fill_basic_info(page)` from app/steps.py: wait for the page,
generate random birthdate data (`age` in 19..40, `month` in 1..3, `day` in
1..28), run up to three fill attempts, click the advance button, return True;
any escaping exception yields False. -/
def maybe_fill_basic_info (E : BasicEnv) : Exc Bool :=
  pyTry (do
    basicWait E 0 10
    let age := randint 19 40 (E.g 0)
    let yearVal := E.todayYear - age
    let midx := randint 1 3 (E.g 1)
    let dayVal := randint 1 28 (E.g 2)
    basicAttempts E (natStr dayVal) (natStr yearVal) midx 0 3
    click_next E.cn
    pure true) false

/- ----------------------------------------------------------------
app/steps.py: maybe_fill_username_page
---------------------------------------------------------------- -/

/-- Page environment of `maybe_fill_username_page`: 20 detection rounds of
four count checks, and per submit attempt the selector lookups, the label
fallbacks, the advance-click environment and the five taken-text counts. -/
structure UsernameEnv where
  detCount : Nat → Nat → Exc Nat
  selLoc : Nat → Nat → Exc Elem
  labCount : Nat → Nat → Exc Nat
  labElem : Nat → Nat → Elem
  cn : Nat → ClickNextEnv
  takenCount : Nat → Nat → Exc Nat
  g : RStream

/-- The detection wait loop of `maybe_fill_username_page` (20 rounds, four
short-circuited count checks; the counts are unguarded). -/
def usernameWait (E : UsernameEnv) : Nat → Nat → Exc Bool
  | _, 0 => pure false
  | r, n + 1 => do
      let c0 ← E.detCount r 0
      if 0 < c0 then pure true else do
      let c1 ← E.detCount r 1
      if 0 < c1 then pure true else do
      let c2 ← E.detCount r 2
      if 0 < c2 then pure true else do
      let c3 ← E.detCount r 3
      if 0 < c3 then pure true else usernameWait E (r + 1) n

/-- The label fallback loop of the username fill (two labels, each wrapped
in `try: ... except: continue`; `filled` is set by a positive count
regardless of the fill outcome). -/
def usernameLabelLoop (E : UsernameEnv) (a : Nat) (value : List Char) :
    Nat → Nat → Exc Bool
  | _, 0 => pure false
  | i, n + 1 =>
      match (do
        let c ← E.labCount a i
        if 0 < c then do
          let _ ← fill_slowly (E.labElem a i) value
          pure true
        else pure false : Exc Bool) with
      | .ok true => pure true
      | .ok false => usernameLabelLoop E a value (i + 1) n
      | .error _ => usernameLabelLoop E a value (i + 1) n

/-- The guarded `taken`-text check of `maybe_fill_username_page`
(five short-circuited counts inside `try: ... except: pass`). -/
def takenCheck (E : UsernameEnv) (a : Nat) : Exc Bool :=
  pyTry (do
    let c0 ← E.takenCount a 0
    if 0 < c0 then pure true else do
    let c1 ← E.takenCount a 1
    if 0 < c1 then pure true else do
    let c2 ← E.takenCount a 2
    if 0 < c2 then pure true else do
    let c3 ← E.takenCount a 3
    if 0 < c3 then pure true else do
    let c4 ← E.takenCount a 4
    if 0 < c4 then pure true else pure false) false

/-- The numeric suffix appended on a taken retry at attempt `a`:
`random.randint(5, 8)` digits, each `str(random.randint(0, 9))`.
Stream positions `g (10 a)` (length) and `g (10 a + 1 + i)` (digits). -/
def suffixDigits (g : RStream) (a : Nat) : List Char :=
  (List.range (randint 5 8 (g (10 * a)))).map
    (fun i => choice ascii_digits '0' (g (10 * a + 1 + i)))

/-- The submit-attempt loop of `maybe_fill_username_page` (four attempts;
the fill section is guarded, the `click_next` call is not, and exhausting
all attempts still returns True). -/
def usernameAttempts (E : UsernameEnv) (username : List Char) :
    List Char → Nat → Nat → Exc Bool
  | _, _, 0 => pure true
  | attemptName, a, n + 1 => do
      let _ ← pyTry (do
        let filled ← fill_first_present_slowly (E.selLoc a) 4 attemptName
        if filled then pure ()
        else do
          let _ ← usernameLabelLoop E a attemptName 0 2
          pure ()) ()
      click_next (E.cn a)
      let taken ← takenCheck E a
      if !taken then pure true
      else usernameAttempts E username (username ++ suffixDigits E.g a) (a + 1) n

/-- `maybe_fill_username_page(page, username)` from app/steps.py. -/
def maybe_fill_username_page (E : UsernameEnv) (username : List Char) : Exc Bool :=
  pyTry (do
    let detected ← usernameWait E 0 20
    if !detected then pure false
    else usernameAttempts E username username 0 4) false

/-- Observation (not code): the username the signup service last accepted —
the attempt username submitted at the first attempt whose taken-check came
back false; `none` when the page was not detected, the advance click raised,
or all four attempts reported taken. -/
def acceptedUsernameAux (E : UsernameEnv) (username : List Char) :
    List Char → Nat → Nat → Option (List Char)
  | _, _, 0 => none
  | attemptName, a, n + 1 =>
      match click_next (E.cn a) with
      | .error _ => none
      | .ok _ =>
          match takenCheck E a with
          | .ok false => some attemptName
          | _ => acceptedUsernameAux E username (username ++ suffixDigits E.g a) (a + 1) n

/-- The service-accepted username over a whole `maybe_fill_username_page`
run (see `acceptedUsernameAux`). -/
def acceptedUsername (E : UsernameEnv) (username : List Char) : Option (List Char) :=
  match usernameWait E 0 20 with
  | .ok true => acceptedUsernameAux E username username 0 4
  | _ => none

/- ----------------------------------------------------------------
app/steps.py: maybe_fill_password_page
---------------------------------------------------------------- -/

/-- Page environment of `maybe_fill_password_page`: 10 wait rounds of two
count checks, the `input[type="password"]` element list, the clipboard
context, and the advance-click environment. -/
structure PasswordEnv where
  waitCount : Nat → Nat → Exc Nat
  pwInputs : Exc (List Elem)
  clip : ClipEnv
  cn : ClickNextEnv

/-- The page-arrival wait loop of `maybe_fill_password_page` (unguarded
counts). -/
def pwWait (E : PasswordEnv) : Nat → Nat → Exc Unit
  | _, 0 => pure ()
  | r, n + 1 => do
      let c0 ← E.waitCount r 0
      if 0 < c0 then pure () else do
      let c1 ← E.waitCount r 1
      if 0 < c1 then pure () else pwWait E (r + 1) n

/-- The `if len(pw_inputs) >= 2:` section of `maybe_fill_password_page`:
slow-fill the first password input and clipboard-paste the second, inside
nested `try: ... except: pass` guards; a no-op when fewer than two password
inputs are present. -/
def pwFillSection (E : PasswordEnv) (password : List Char) (pws : List Elem) : Exc Unit :=
  match pws with
  | p0 :: p1 :: _ =>
      pyTry (do
        let _ ← fill_slowly p0 password
        let _ ← pyTry (do
          let _ ← paste_text_via_clipboard E.clip p1 password
          pure ()) ()
        pure ()) ()
  | _ => pure ()

/-- The body of `maybe_fill_password_page` before its outer
`try: ... except: return False`: wait for the page, list the password
inputs, run the guarded fill section, click the advance button, return
True. -/
def pwBody (E : PasswordEnv) (password : List Char) : Exc Bool := do
  pwWait E 0 10
  let pws ← E.pwInputs
  let _ ← pwFillSection E password pws
  click_next E.cn
  pure true

/-- `maybe_fill_password_page(page, password)` from app/steps.py. -/
def maybe_fill_password_page (E : PasswordEnv) (password : List Char) : Exc Bool :=
  pyTry (pwBody E password) false

/- ----------------------------------------------------------------
app/steps.py: maybe_choose_recommended_email
---------------------------------------------------------------- -/

deriving instance DecidableEq for Except

/-- Python `str.strip()`. -/
def pyStrip (s : List Char) : List Char :=
  ((s.dropWhile Char.isWhitespace).reverse.dropWhile Char.isWhitespace).reverse

/-- Python `str.lower()` on a character list. -/
def pyLower (s : List Char) : List Char := s.map Char.toLower

/-- A radio option of the recommendation screen: its DOM `value` attribute,
whether reading it or checking it raises, and its `aria-label` /
`inner_text` as read by the role-based fallback. -/
structure Radio where
  val : Option (List Char)
  getAttrRaises : Bool
  checkRaises : Bool
  ariaLabel : Exc (Option (List Char))
  text : Exc (List Char)
deriving DecidableEq

/-- Page environment of `maybe_choose_recommended_email`. -/
structure RecEnv where
  headingCount : Nat → Nat → Exc Nat
  radioInputsCount : Exc Nat
  usernameRadioAll : Exc (List Radio)
  roleRadios : Exc (List Radio)
  cn : ClickNextEnv

/-- A selection the filler performed: `.check()` on a direct
`usernameRadio` input, or a click on a role-based radio. -/
inductive Sel where
  | checked (r : Radio)
  | clickedRole (r : Radio)
deriving DecidableEq

/-- The observed `(opt.get_attribute("value") or "").strip()`. -/
def radioVal (r : Radio) : Exc (List Char) :=
  if r.getAttrRaises then .error () else .ok (pyStrip (r.val.getD []))

/-- The `for opt in options:` loop of the direct-input path: skip options
whose value read raises, is empty or is "custom" (case-insensitively), or
whose `.check()` raises; adopt the first remaining option. -/
def primaryPick : List Radio → Option (Radio × List Char)
  | [] => none
  | r :: rs =>
      match radioVal r with
      | .error _ => primaryPick rs
      | .ok v =>
          if v = [] ∨ pyLower v = "custom".toList then primaryPick rs
          else if r.checkRaises then primaryPick rs
          else some (r, v)

/-- The heading-detection loop of `maybe_choose_recommended_email`
(10 rounds, two headings; the counts are unguarded). -/
def recDetect (E : RecEnv) : Nat → Nat → Exc Bool
  | _, 0 => pure false
  | r, n + 1 => do
      let c0 ← E.headingCount r 0
      if 0 < c0 then pure true else do
      let c1 ← E.headingCount r 1
      if 0 < c1 then pure true else recDetect E (r + 1) n

/-- The `suggested = first.get_attribute("aria-label") or first.inner_text()`
extraction of the role-based fallback, guarded by `try: ... except: print`:
on success, a local-part is extracted when the text contains `@`. -/
def fallbackLocal (first : Radio) : Option (List Char) :=
  match (do
    let al ← first.ariaLabel
    match al with
    | some s => if s = [] then first.text else pure s
    | none => first.text : Exc (List Char)) with
  | .error _ => none
  | .ok s =>
      if s ≠ [] ∧ '@' ∈ s then some (pyStrip (s.takeWhile (fun c => c ≠ '@')))
      else none

/-- The heading/heuristic detection outcome of
`maybe_choose_recommended_email` given the role-heading loop result. -/
def mcreDetected (E : RecEnv) (det0 : Bool) : Bool :=
  if det0 then true
  else
    match E.radioInputsCount with
    | .ok c => decide (0 < c)
    | .error _ => false

/-- The selection adopted on the direct-input path: the outcome of the
`for opt in options:` loop over `input[name="usernameRadio"]` (the guarding
`try: ... except: pass` turns a raising `.all()` into no selection). -/
def mcrePrimary (E : RecEnv) : Option (Radio × List Char) :=
  match E.usernameRadioAll with
  | .error _ => none
  | .ok options => primaryPick options

/-- The part of `maybe_choose_recommended_email`'s body after detection
succeeded: direct-input path, role-based fallback path, advance click. -/
def mcreAfterDetect (E : RecEnv) : Exc (Option (List Char)) × List Sel :=
  match mcrePrimary E with
  | some (r, v) =>
      match click_next E.cn with
      | .error _ => (.error (), [Sel.checked r])
      | .ok _ => (.ok (some v), [Sel.checked r])
  | none =>
      match E.roleRadios with
      | .error _ => (.error (), [])
      | .ok [] => (.ok none, [])
      | .ok (first :: _) =>
          match click_next E.cn with
          | .error _ => (.error (), [Sel.clickedRole first])
          | .ok _ => (.ok (fallbackLocal first), [Sel.clickedRole first])

/-- The body of `maybe_choose_recommended_email` under its outer
`try: ... except Exception: return None`: the first component is the body's
outcome (`.error ()` when an unguarded call raised); the second is the list
of radio selections physically performed before that point — state that
survives a later exception. -/
def mcreBody (E : RecEnv) : Exc (Option (List Char)) × List Sel :=
  match recDetect E 0 10 with
  | .error _ => (.error (), [])
  | .ok det0 =>
      if !mcreDetected E det0 then (.ok none, [])
      else mcreAfterDetect E

/-- `maybe_choose_recommended_email(page)` from app/steps.py: the outer
`except Exception` turns any escaping exception of the body into a `None`
return; the selections already performed stay performed. -/
def maybe_choose_recommended_email (E : RecEnv) : Option (List Char) × List Sel :=
  match mcreBody E with
  | (.ok v, t) => (v, t)
  | (.error _, t) => (none, t)

/- ----------------------------------------------------------------
app/steps.py: fill_recovery_email
---------------------------------------------------------------- -/

/-- Page environment of `fill_recovery_email`: four candidate selectors. -/
structure RecovEnv where
  selCount : Nat → Exc Nat
  selElem : Nat → Elem

/-- The selector loop of `fill_recovery_email`, each candidate wrapped in
`try: ... except: continue`; returns True on the first present field
regardless of the fill outcome. -/
def recovLoop (E : RecovEnv) (value : List Char) : Nat → Nat → Exc Bool
  | _, 0 => pure false
  | i, n + 1 =>
      match (do
        let c ← E.selCount i
        if 0 < c then do
          let _ ← fill_slowly (E.selElem i) value
          pure true
        else pure false : Exc Bool) with
      | .ok true => pure true
      | .ok false => recovLoop E value (i + 1) n
      | .error _ => recovLoop E value (i + 1) n

/-- `fill_recovery_email(page, recovery_email)` from app/steps.py. -/
def fill_recovery_email (E : RecovEnv) (recovery_email : List Char) : Exc Bool :=
  pyTry (recovLoop E recovery_email 0 4) false

/- ----------------------------------------------------------------
C5: propagation policy of primitives and fillers
---------------------------------------------------------------- -/

/-- An element all of whose calls succeed. -/
def okElem : Elem :=
  { boundingBox := .ok (some ()), mouseOps := .ok (), clearOp := .ok (),
    typeOp := fun _ => .ok (), fillOp := .ok (), rawClick := .ok (),
    insertText := .ok (), selectOption := .ok () }

/-- A `click_next` page environment in which no candidate button exists. -/
def cnNone : ClickNextEnv := { count := fun _ _ => .ok 0, btn := fun _ _ => okElem }

/-- A `click_next` page environment in which the first candidate button is
found at once and the click succeeds. -/
def cnFound : ClickNextEnv := { count := fun _ _ => .ok 1, btn := fun _ _ => okElem }

theorem ffpsAux_ok (loc : Nat → Exc Elem) (v : List Char) (n i : Nat) :
    ∃ b, ffpsAux loc v i n = Except.ok b := by
  induction n generalizing i with
  | zero => exact ⟨false, rfl⟩
  | succ n ih =>
      unfold ffpsAux
      cases hl : loc i with
      | error e => exact ih (i + 1)
      | ok e =>
          dsimp only
          cases hf : fill_slowly e v with
          | error e2 => exact ih (i + 1)
          | ok b =>
              cases b
              · exact ih (i + 1)
              · exact ⟨true, rfl⟩

/-- C5: the human-interaction primitives and the page fillers signal failure
only through their return value — for every page environment each of them
evaluates to `.ok _`, never to a raised exception; the advance-button helper
`click_next` is the one function of the layer that can raise (when no button
matches), and the recommendation filler converts even an escaping body
exception into a `None` return.  Only session-creation and attempt-boundary
code (see `register_flow`) let exceptions propagate. -/
theorem c5_fillers_never_raise :
    (∃ E : ClickNextEnv, click_next E = Except.error ()) ∧
    (∀ e : Elem, ∃ b, human_click e = Except.ok b) ∧
    (∀ (e : Elem) (v : List Char), ∃ b, fill_slowly e v = Except.ok b) ∧
    (∀ (loc : Nat → Exc Elem) (n : Nat) (v : List Char),
        ∃ b, fill_first_present_slowly loc n v = Except.ok b) ∧
    (∀ (C : ClipEnv) (e : Elem) (t : List Char),
        ∃ b, paste_text_via_clipboard C e t = Except.ok b) ∧
    (∀ E : BasicEnv, ∃ b, maybe_fill_basic_info E = Except.ok b) ∧
    (∀ (E : UsernameEnv) (u : List Char), ∃ b, maybe_fill_username_page E u = Except.ok b) ∧
    (∀ (E : PasswordEnv) (p : List Char), ∃ b, maybe_fill_password_page E p = Except.ok b) ∧
    (∀ (E : RecovEnv) (v : List Char), ∃ b, fill_recovery_email E v = Except.ok b) ∧
    (∀ E : RecEnv, (mcreBody E).1 = Except.error () →
        (maybe_choose_recommended_email E).1 = none) := by
  refine ⟨⟨cnNone, by rfl⟩, ?_, ?_, ?_, ?_, ?_, ?_, ?_, ?_, ?_⟩
  · intro e
    unfold human_click
    exact pyTry_ok _ _
  · intro e v
    unfold fill_slowly
    exact pyTry_ok _ _
  · intro loc n v
    unfold fill_first_present_slowly
    split
    · exact ⟨false, rfl⟩
    · exact ffpsAux_ok loc v n 0
  · intro C e t
    unfold paste_text_via_clipboard
    exact pyTry_ok _ _
  · intro E
    unfold maybe_fill_basic_info
    exact pyTry_ok _ _
  · intro E u
    unfold maybe_fill_username_page
    exact pyTry_ok _ _
  · intro E p
    unfold maybe_fill_password_page
    exact pyTry_ok _ _
  · intro E v
    unfold fill_recovery_email
    exact pyTry_ok _ _
  · intro E h
    unfold maybe_choose_recommended_email
    rcases hm : mcreBody E with ⟨x, t⟩
    rw [hm] at h
    simp only at h
    subst h
    rfl

/-- An environment in which the recommendation filler's body raises on the
very first heading query. -/
def recErrEnv : RecEnv :=
  { headingCount := fun _ _ => .error (), radioInputsCount := .ok 0,
    usernameRadioAll := .ok [], roleRadios := .ok [], cn := cnNone }

theorem c5_fillers_never_raise_witness :
    (mcreBody recErrEnv).1 = Except.error () ∧
    (maybe_choose_recommended_email recErrEnv).1 = none :=
  ⟨by rfl, c5_fillers_never_raise.2.2.2.2.2.2.2.2.2 recErrEnv (by rfl)⟩

/- ----------------------------------------------------------------
C10: the password filler's completion flag
---------------------------------------------------------------- -/

/-- Did an `Exc` computation complete without raising? -/
def excOk : Exc α → Bool
  | .ok _ => true
  | .error _ => false

theorem pwFillSection_ok (E : PasswordEnv) (p : List Char) (pws : List Elem) :
    ∃ u, pwFillSection E p pws = Except.ok u := by
  match pws with
  | [] => exact ⟨(), rfl⟩
  | [a] => exact ⟨(), rfl⟩
  | a :: b :: t =>
      unfold pwFillSection
      exact pyTry_ok _ _

theorem pwBody_ne_ok_false (E : PasswordEnv) (p : List Char) :
    pwBody E p ≠ Except.ok false := by
  unfold pwBody
  cases h1 : pwWait E 0 10 with
  | error e => simp [bind, Except.bind, h1]
  | ok u =>
      cases h2 : E.pwInputs with
      | error e => simp [bind, Except.bind, h1, h2]
      | ok pws =>
          obtain ⟨w, hw⟩ := pwFillSection_ok E p pws
          cases h3 : click_next E.cn with
          | error e => simp [bind, Except.bind, h1, h2, hw, h3]
          | ok v => simp [bind, Except.bind, h1, h2, hw, h3, pure, Except.pure]

/-- C10 (amended): `maybe_fill_password_page` returns True exactly when no
exception escapes its body — the wait-loop queries, the password-elements
query, or the advance-click sequence — and the number of password inputs and
the outcome of filling them never influence the result. -/
theorem c10_password_completion_amended (E : PasswordEnv) (p : List Char) :
    maybe_fill_password_page E p = Except.ok (excOk (pwBody E p)) := by
  unfold maybe_fill_password_page pyTry
  cases h : pwBody E p with
  | error e => simp [excOk]
  | ok b =>
      cases b
      · exact absurd h (pwBody_ne_ok_false E p)
      · simp [excOk]

/-- A clipboard context on a non-Windows platform with all calls
succeeding. -/
def okClip : ClipEnv :=
  { clipboardAvailable := false, isWindows := false, copyOp := .ok (),
    pressPaste := .ok () }

/-- A password-page environment whose very first wait-loop query raises,
while the advance-click environment would succeed. -/
def pwErrEnv : PasswordEnv :=
  { waitCount := fun _ _ => .error (), pwInputs := .ok [], clip := okClip,
    cn := cnFound }

/-- C10 counterexample: the claim "it returns false only when an exception
escapes the advance-button click sequence" fails — in `pwErrEnv` the
advance-click sequence succeeds, yet the filler returns False because the
unguarded wait-loop query raised. -/
theorem c10_password_completion_counterexample :
    maybe_fill_password_page pwErrEnv ("pw".toList) = Except.ok false ∧
    click_next pwErrEnv.cn = Except.ok () := by
  constructor
  · rfl
  · rfl

/- ----------------------------------------------------------------
C4: recommended-email selection never picks "custom" (direct path only)
---------------------------------------------------------------- -/

theorem primaryPick_not_custom (options : List Radio) (r : Radio) (v : List Char)
    (h : primaryPick options = some (r, v)) :
    radioVal r = Except.ok v ∧ v ≠ [] ∧ pyLower v ≠ "custom".toList ∧
      r.checkRaises = false := by
  induction options with
  | nil => simp [primaryPick] at h
  | cons a rs ih =>
      unfold primaryPick at h
      cases hv : radioVal a with
      | error e =>
          rw [hv] at h
          exact ih h
      | ok w =>
          rw [hv] at h
          dsimp only at h
          by_cases hskip : w = [] ∨ pyLower w = "custom".toList
          · rw [if_pos hskip] at h
            exact ih h
          · rw [if_neg hskip] at h
            by_cases hc : a.checkRaises = true
            · rw [if_pos hc] at h
              exact ih h
            · rw [if_neg hc] at h
              simp only [Option.some.injEq, Prod.mk.injEq] at h
              obtain ⟨hr, hvv⟩ := h
              subst hr
              subst hvv
              push_neg at hskip
              exact ⟨hv, hskip.1, hskip.2, by simpa using hc⟩

theorem mcre_trace_eq (E : RecEnv) :
    (maybe_choose_recommended_email E).2 = (mcreBody E).2 := by
  unfold maybe_choose_recommended_email
  rcases hm : mcreBody E with ⟨x, t⟩
  cases x <;> rfl

theorem mcreAfterDetect_checked (E : RecEnv) (r : Radio)
    (hmem : Sel.checked r ∈ (mcreAfterDetect E).2) :
    ∃ options v, E.usernameRadioAll = Except.ok options ∧
      primaryPick options = some (r, v) := by
  unfold mcreAfterDetect at hmem
  cases hp : mcrePrimary E with
  | some rv =>
      obtain ⟨r0, v0⟩ := rv
      rw [hp] at hmem
      have hr : r = r0 := by
        cases hcn : click_next E.cn <;> rw [hcn] at hmem <;> simpa using hmem
      subst hr
      unfold mcrePrimary at hp
      cases hall : E.usernameRadioAll with
      | error e => rw [hall] at hp; simp at hp
      | ok options =>
          rw [hall] at hp
          exact ⟨options, v0, rfl, hp⟩
  | none =>
      rw [hp] at hmem
      cases hrr : E.roleRadios with
      | error e => rw [hrr] at hmem; simp at hmem
      | ok radios =>
          rw [hrr] at hmem
          cases radios with
          | nil => simp at hmem
          | cons first rest =>
              cases hcn : click_next E.cn <;> rw [hcn] at hmem <;> simp at hmem

theorem mcreAfterDetect_clicked (E : RecEnv) (r : Radio)
    (hmem : Sel.clickedRole r ∈ (mcreAfterDetect E).2) :
    ∃ rest, E.roleRadios = Except.ok (r :: rest) := by
  unfold mcreAfterDetect at hmem
  cases hp : mcrePrimary E with
  | some rv =>
      obtain ⟨r0, v0⟩ := rv
      rw [hp] at hmem
      cases hcn : click_next E.cn <;> rw [hcn] at hmem <;> simp at hmem
  | none =>
      rw [hp] at hmem
      cases hrr : E.roleRadios with
      | error e => rw [hrr] at hmem; simp at hmem
      | ok radios =>
          rw [hrr] at hmem
          cases radios with
          | nil => simp at hmem
          | cons first rest =>
              have hr : r = first := by
                cases hcn : click_next E.cn <;> rw [hcn] at hmem <;> simpa using hmem
              subst hr
              exact ⟨rest, rfl⟩

theorem mcreBody_trace_sub (E : RecEnv) (s : Sel) (hmem : s ∈ (mcreBody E).2) :
    s ∈ (mcreAfterDetect E).2 := by
  unfold mcreBody at hmem
  cases hd : recDetect E 0 10 with
  | error e => rw [hd] at hmem; simp at hmem
  | ok det0 =>
      rw [hd] at hmem
      dsimp only at hmem
      by_cases hdet : (!mcreDetected E det0) = true
      · rw [if_pos hdet] at hmem; simp at hmem
      · rw [if_neg hdet] at hmem; exact hmem

/-- C4 (amended): on the direct-input path, `maybe_choose_recommended_email`
only checks a `usernameRadio` option whose value attribute was read
successfully, is nonempty and differs from "custom" case-insensitively —
so a checked option is never the custom option; on the role-based fallback
path, however, the filler clicks the first offered radio unconditionally,
which may well be the custom/free-text option. -/
theorem c4_recommended_email_selection_amended (E : RecEnv) :
    (∀ r, Sel.checked r ∈ (maybe_choose_recommended_email E).2 →
        ∃ v, radioVal r = Except.ok v ∧ v ≠ [] ∧ pyLower v ≠ "custom".toList) ∧
    (∀ r, Sel.clickedRole r ∈ (maybe_choose_recommended_email E).2 →
        ∃ rest, E.roleRadios = Except.ok (r :: rest)) := by
  constructor
  · intro r hmem
    rw [mcre_trace_eq] at hmem
    have hmem2 := mcreBody_trace_sub E _ hmem
    obtain ⟨options, v, hall, hpick⟩ := mcreAfterDetect_checked E r hmem2
    obtain ⟨hv, hne, hnc, _⟩ := primaryPick_not_custom options r v hpick
    exact ⟨v, hv, hne, hnc⟩
  · intro r hmem
    rw [mcre_trace_eq] at hmem
    exact mcreAfterDetect_clicked E r (mcreBody_trace_sub E _ hmem)

/-- The custom/free-text radio option: its DOM value attribute is
"custom". -/
def customRadio : Radio :=
  { val := some ("custom".toList), getAttrRaises := false, checkRaises := false,
    ariaLabel := .ok none, text := .ok [] }

/-- A recommendation page offering no direct `usernameRadio` inputs and,
on the role-based fallback, the custom option first. -/
def recCustomEnv : RecEnv :=
  { headingCount := fun _ _ => .ok 1, radioInputsCount := .ok 0,
    usernameRadioAll := .ok [], roleRadios := .ok [customRadio], cn := cnFound }

/-- C4 counterexample: the claim "the filler selects the first option whose
value is not custom, on every selection path including the fallback path" is
false — in `recCustomEnv` the fallback path selects (clicks) exactly the
radio whose value attribute is "custom". -/
theorem c4_recommended_email_selection_counterexample :
    (maybe_choose_recommended_email recCustomEnv).2 = [Sel.clickedRole customRadio] ∧
    pyLower (pyStrip (customRadio.val.getD [])) = "custom".toList := by
  constructor
  · rfl
  · rfl

/-- A direct-input option with an ordinary suggested value. -/
def goodRadio : Radio :=
  { val := some ("abc123".toList), getAttrRaises := false, checkRaises := false,
    ariaLabel := .ok none, text := .ok [] }

/-- A recommendation page whose direct-input path offers `goodRadio`. -/
def recPrimaryEnv : RecEnv :=
  { headingCount := fun _ _ => .ok 1, radioInputsCount := .ok 0,
    usernameRadioAll := .ok [goodRadio], roleRadios := .ok [], cn := cnFound }

theorem c4_recommended_email_selection_amended_witness :
    (Sel.checked goodRadio ∈ (maybe_choose_recommended_email recPrimaryEnv).2) ∧
    (∃ v, radioVal goodRadio = Except.ok v ∧ v ≠ [] ∧ pyLower v ≠ "custom".toList) :=
  ⟨by decide,
   (c4_recommended_email_selection_amended recPrimaryEnv).1 goodRadio (by decide)⟩

/- ----------------------------------------------------------------
app/register.py: recovery email, success record, username adoption
---------------------------------------------------------------- -/

/-- The disposable-mail domain pool of `generate_recovery_email`. -/
def RECOVERY_DOMAINS : List String :=
  ["blondmail.com", "chapsmail.com", "clowmail.com", "dropjar.com",
   "fivermail.com", "getairmail.com", "getmule.com", "getnada.com",
   "gimpmail.com", "givmail.com", "guysmail.com", "inboxbear.com",
   "replyloop.com", "robot-mail.com", "spicysoda.com", "tafmail.com",
   "temptami.com", "tupmail.com", "vomoto.com"]

/-- `generate_recovery_email()` from app/register.py: a random lowercase
alphanumeric local-part of `random.randint(8, 12)` characters and a random
domain from the pool.  Stream positions: `g 0` length, `g (1+i)` characters,
`g 50` domain. -/
def generate_recovery_email (g : RStream) : List Char :=
  let username_length := randint 8 12 (g 0)
  let username := (List.range username_length).map
    (fun i => choice (ascii_lowercase ++ ascii_digits) 'a' (g (1 + i)))
  let domain := choice RECOVERY_DOMAINS "blondmail.com" (g 50)
  username ++ '@' :: domain.toList

/-- The record line `f"{username}@gmail.com|{password}|{recovery_email}"`
that `write_success_to_file` (app/register.py) appends to the credential
sink; the file write itself is I/O inside `try: ... except`, with no effect
on control flow. -/
def success_line (username password recovery_email : List Char) : List Char :=
  username ++ "@gmail.com|".toList ++ password ++ "|".toList ++ recovery_email

/-- The username-handling slice of `_fill_signup_flow` (app/register.py):
run `maybe_fill_username_page` with `cfg["username"]` — its boolean result
is discarded — then `maybe_choose_recommended_email` inside
`try: ... except: pass`, overwriting `cfg["username"]` with the returned
local-part only when it is truthy (nonempty).  Returns the `cfg["username"]`
every later step (including `write_success_to_file`) sees. -/
def username_flow_cfg (U : UsernameEnv) (R : RecEnv) (cfgUsername : List Char) :
    List Char :=
  let _ := maybe_fill_username_page U cfgUsername
  match (maybe_choose_recommended_email R).1 with
  | some l => if l = [] then cfgUsername else l
  | none => cfgUsername

/- ----------------------------------------------------------------
app/register.py: the verification-block polling loop of _fill_signup_flow
---------------------------------------------------------------- -/

/-- Page/detector script of the polling loop, per iteration `i`.  The four
detectors catch internally and return booleans; the advance clicks and the
recovery fill have their own environments; `g i` feeds
`generate_recovery_email` at iteration `i`. -/
structure PollEnv where
  verif : Nat → Bool
  recov : Nat → Bool
  review : Nat → Bool
  privacy : Nat → Bool
  recovFill : Nat → RecovEnv
  cnRecov : Nat → ClickNextEnv
  cnReview : Nat → ClickNextEnv
  privacyHandled : Nat → Bool
  g : Nat → RStream
  cfgUsername : List Char
  cfgPassword : List Char

/-- Mutable state of the polling loop: the local `recovery_email` binding
(None while still unbound — using it then raises `NameError`), the lines
appended to the credential sink, and the page actions performed, tagged
`(iteration, action)` with 0 = recovery fill, 1 = review advance click,
2 = privacy-terms handling. -/
structure FlowState where
  recovery_email : Option (List Char)
  writes : List (List Char)
  acts : List (Nat × Nat)
deriving DecidableEq

/-- How the registration attempt's polling loop ends. -/
inductive FlowOutcome where
  | blocked
  | success
deriving DecidableEq

/-- Result of one loop iteration: the function returned, or the loop
continues with an updated state. -/
inductive IterOut where
  | ret (o : FlowOutcome) (st : FlowState)
  | cont (st : FlowState)
deriving DecidableEq

/-- The privacy-terms branch at the end of a loop iteration: when the
privacy page is detected, run `handle_privacy_terms_page` (result ignored)
and then `write_success_to_file(cfg, recovery_email)` — if `recovery_email`
was never bound this raises `NameError`, which the iteration's
`except: pass` swallows, and the loop continues without a write. -/
def pollIterPrivacy (E : PollEnv) (i : Nat) (st : FlowState) : IterOut :=
  if E.privacy i then
    let st1 := { st with acts := st.acts ++ [(i, 2)] }
    match st1.recovery_email with
    | none => IterOut.cont st1
    | some r =>
        IterOut.ret FlowOutcome.success
          { st1 with
            writes := st1.writes ++ [success_line E.cfgUsername E.cfgPassword r] }
  else IterOut.cont st

/-- The account-review branch: when detected, click the advance button; if
the click raises, the iteration's `except: pass` ends the iteration. -/
def pollIterReview (E : PollEnv) (i : Nat) (st : FlowState) : IterOut :=
  if E.review i then
    let st1 := { st with acts := st.acts ++ [(i, 1)] }
    match click_next (E.cnReview i) with
    | .error _ => IterOut.cont st1
    | .ok _ => pollIterPrivacy E i st1
  else pollIterPrivacy E i st

/-- One iteration of the polling loop of `_fill_signup_flow`
(register.py lines 257-299), with the iteration body's
`try: ... except: pass`: the verification-block detector is checked first
and returns immediately; then the recovery-email, account-review and
privacy-terms branches run in order.  State mutations made before an
in-iteration exception survive it. -/
def pollIter (E : PollEnv) (i : Nat) (st : FlowState) : IterOut :=
  if E.verif i then IterOut.ret FlowOutcome.blocked st
  else if E.recov i then
    let r := generate_recovery_email (E.g i)
    let _ := fill_recovery_email (E.recovFill i) r
    let st1 := { st with recovery_email := some r, acts := st.acts ++ [(i, 0)] }
    match click_next (E.cnRecov i) with
    | .error _ => IterOut.cont st1
    | .ok _ => pollIterReview E i st1
  else pollIterReview E i st

/-- When the attempt's polling loop hands control back. -/
inductive RunOut where
  | blocked (st : FlowState)
  | success (st : FlowState)
  | timeout (st : FlowState)
deriving DecidableEq

/-- The bounded polling loop (`for _ in range(90)`); exhausting the bound
falls through to the normal function end with no credential write. -/
def pollLoop (E : PollEnv) : Nat → Nat → FlowState → RunOut
  | _, 0, st => RunOut.timeout st
  | i, n + 1, st =>
      match pollIter E i st with
      | IterOut.ret FlowOutcome.blocked st2 => RunOut.blocked st2
      | IterOut.ret FlowOutcome.success st2 => RunOut.success st2
      | IterOut.cont st2 => pollLoop E (i + 1) n st2

/-- The polling phase of `_fill_signup_flow`, started with `recovery_email`
unbound and no credential writes. -/
def poll_verification_loop (E : PollEnv) : RunOut :=
  pollLoop E 0 90 { recovery_email := none, writes := [], acts := [] }

/- ----------------------------------------------------------------
app/hidemium_client.py: cleanup_page; app/register.py: register_flow
---------------------------------------------------------------- -/

/-- The independent cleanup calls of `cleanup_page`. -/
inductive CStep where
  | ctxClose
  | browserClose
  | pwStop
  | closeProfile
  | deleteProfile
deriving DecidableEq

/-- Failure script for a session's teardown: whether the page carries the
`_hidemium_cleanup` info, and which underlying close/stop/delete calls
raise. -/
structure CleanupEnv where
  hasCleanupInfo : Bool
  ctxCloseRaises : Bool
  browserCloseRaises : Bool
  pwStopRaises : Bool
  closeProfileRaises : Bool
  deleteProfileRaises : Bool

/-- One guarded cleanup call: the call is made (and recorded) and its own
`try: ... except` swallows a raise, so the attempt list never depends on the
outcome. -/
def attemptStep (raises : Bool) (tag : CStep) : List CStep :=
  let _ := pyTry (if raises then (Except.error () : Exc Unit) else .ok ()) ()
  [tag]

/-- `cleanup_page(page, delete_profile)` from app/hidemium_client.py: close
the Playwright context, browser and driver, close the remote profile, and —
when requested — delete it, each call inside its own `try: ... except`;
the whole body sits inside an outer `try: ... except` that only logs.
Returns the (never-raising) outcome and the cleanup calls attempted, in
order. -/
def cleanup_page (E : CleanupEnv) (delete_profile : Bool) : Exc Unit × List CStep :=
  if E.hasCleanupInfo then
    let s1 := attemptStep E.ctxCloseRaises CStep.ctxClose
    let s2 := attemptStep E.browserCloseRaises CStep.browserClose
    let s3 := attemptStep E.pwStopRaises CStep.pwStop
    let s4 := attemptStep E.closeProfileRaises CStep.closeProfile
    let s5 := if delete_profile then attemptStep E.deleteProfileRaises CStep.deleteProfile else []
    (.ok (), s1 ++ s2 ++ s3 ++ s4 ++ s5)
  else (.ok (), [])

/-- The teardown actions `register_flow`'s finally block can perform. -/
inductive Teardown where
  | cleanupPage (delete_profile : Bool)
  | forceDelete
deriving DecidableEq

/-- Failure script of one `register_flow` attempt (hidemium engine):
whether `engine_kwargs` carried a profile UUID, whether connecting to the
created profile raised, whether `_fill_signup_flow` raised, whether the
`client.cleanup_page` call raised, whether the page carried the cleanup
attribute with a UUID, and the `hidemium_delete_profile` setting. -/
structure RegEnv where
  profileUuidProvided : Bool
  connectRaises : Bool
  flowRaises : Bool
  cleanupRaises : Bool
  hasCleanupAttr : Bool
  deleteProfileCfg : Bool

/-- `register_flow(cfg, engine_kwargs, wait_seconds)` from app/register.py,
hidemium branch: the try-body raises `ValueError` without a UUID, then
connects (`page` stays None when this raises), then runs the signup flow;
the `except` re-raises after logging; the `finally` block runs teardown only
under `if page and client:` — `cleanup_page` with the configured deletion
flag, plus a force-delete fallback when that call raises and deletion was
requested and the page carries the cleanup attribute.  Returns the attempt's
outcome (`.error ()` = the attempt raised to the worker) and the teardown
calls performed. -/
def register_flow (E : RegEnv) : Exc Unit × List Teardown :=
  let pageCreated := E.profileUuidProvided && !E.connectRaises
  let bodyResult : Exc Unit :=
    if !E.profileUuidProvided then .error ()
    else if E.connectRaises then .error ()
    else if E.flowRaises then .error ()
    else .ok ()
  let teardown : List Teardown :=
    if pageCreated then
      if E.cleanupRaises then
        Teardown.cleanupPage E.deleteProfileCfg ::
          (if E.deleteProfileCfg && E.hasCleanupAttr then [Teardown.forceDelete] else [])
      else [Teardown.cleanupPage E.deleteProfileCfg]
    else []
  (bodyResult, teardown)

/- ----------------------------------------------------------------
C6: teardown is exception-safe
---------------------------------------------------------------- -/

/-- C6: for every failure script of the underlying close/stop/delete calls,
`cleanup_page` completes without propagating an exception and attempts every
independent cleanup step, in order, with the profile deletion included
exactly when requested. -/
theorem c6_cleanup_exception_safe (E : CleanupEnv) (del : Bool)
    (h : E.hasCleanupInfo = true) :
    (cleanup_page E del).1 = Except.ok () ∧
    (cleanup_page E del).2 =
      [CStep.ctxClose, CStep.browserClose, CStep.pwStop, CStep.closeProfile] ++
        (if del then [CStep.deleteProfile] else []) := by
  unfold cleanup_page attemptStep
  rw [if_pos h]
  cases del <;> simp

/-- A session whose every underlying cleanup call raises. -/
def allRaiseCleanup : CleanupEnv :=
  { hasCleanupInfo := true, ctxCloseRaises := true, browserCloseRaises := true,
    pwStopRaises := true, closeProfileRaises := true, deleteProfileRaises := true }

theorem c6_cleanup_exception_safe_witness :
    (cleanup_page allRaiseCleanup true).1 = Except.ok () ∧
    (cleanup_page allRaiseCleanup true).2 =
      [CStep.ctxClose, CStep.browserClose, CStep.pwStop, CStep.closeProfile,
       CStep.deleteProfile] := by
  have h := c6_cleanup_exception_safe allRaiseCleanup true (by decide)
  simpa using h

/- ----------------------------------------------------------------
C3: teardown on every exit path of an attempt
---------------------------------------------------------------- -/

/-- An attempt whose profile was created (a UUID was passed in) but whose
`connect_to_profile` raised after its retries. -/
def connectFailEnv : RegEnv :=
  { profileUuidProvided := true, connectRaises := true, flowRaises := false,
    cleanupRaises := false, hasCleanupAttr := true, deleteProfileCfg := true }

/-- C3 counterexample: on the exit path where the profile was created but
connecting to it failed, `register_flow` runs no teardown at all — the
finally block's `if page and client:` guard skips `cleanup_page`, so the
remote profile is neither closed nor deleted. -/
theorem c3_teardown_counterexample :
    register_flow connectFailEnv = (Except.error (), []) := by rfl

/-- C3 (amended): teardown runs on every exit path on which the session page
was actually created (connect succeeded) — both normal completion and a flow
exception — via `cleanup_page` with the configured deletion flag, plus the
force-delete fallback when that call raises; but when connecting to the
created profile fails, the finally block's page guard skips teardown
entirely. -/
theorem c3_teardown_amended (E : RegEnv) (h1 : E.profileUuidProvided = true)
    (h2 : E.connectRaises = false) :
    (register_flow E).1 = (if E.flowRaises then Except.error () else Except.ok ()) ∧
    (register_flow E).2 =
      Teardown.cleanupPage E.deleteProfileCfg ::
        (if E.cleanupRaises && (E.deleteProfileCfg && E.hasCleanupAttr)
          then [Teardown.forceDelete] else []) := by
  unfold register_flow
  simp only [h1, h2, Bool.not_true, Bool.not_false, Bool.and_true, Bool.true_and,
    Bool.false_eq_true, if_false, if_true]
  constructor
  · cases E.flowRaises <;> simp
  · cases E.cleanupRaises <;> simp

/-- An attempt that connected successfully and whose signup flow raised. -/
def flowFailEnv : RegEnv :=
  { profileUuidProvided := true, connectRaises := false, flowRaises := true,
    cleanupRaises := false, hasCleanupAttr := false, deleteProfileCfg := true }

theorem c3_teardown_amended_witness :
    (register_flow flowFailEnv).1 = Except.error () ∧
    (register_flow flowFailEnv).2 = [Teardown.cleanupPage true] := by
  have h := c3_teardown_amended flowFailEnv (by decide) (by decide)
  simpa using h

/- ----------------------------------------------------------------
C2: verification block stops the attempt with zero credential writes
---------------------------------------------------------------- -/

theorem pollIterPrivacy_writes (E : PollEnv) (i : Nat) (st st2 : FlowState) :
    (pollIterPrivacy E i st = IterOut.cont st2 → st2.writes = st.writes) ∧
    (pollIterPrivacy E i st = IterOut.ret FlowOutcome.blocked st2 → False) := by
  unfold pollIterPrivacy
  by_cases hp : E.privacy i
  · rw [if_pos hp]
    cases hre : st.recovery_email with
    | none =>
        simp only [hre]
        constructor
        · intro h
          cases h
          rfl
        · intro h
          cases h
    | some r =>
        simp only [hre]
        constructor
        · intro h
          cases h
        · intro h
          cases h
  · rw [if_neg hp]
    constructor
    · intro h
      cases h
      rfl
    · intro h
      cases h

theorem pollIterReview_writes (E : PollEnv) (i : Nat) (st st2 : FlowState) :
    (pollIterReview E i st = IterOut.cont st2 → st2.writes = st.writes) ∧
    (pollIterReview E i st = IterOut.ret FlowOutcome.blocked st2 → False) := by
  unfold pollIterReview
  by_cases hr : E.review i
  · rw [if_pos hr]
    cases hcn : click_next (E.cnReview i) with
    | error e =>
        constructor
        · intro h
          cases h
          rfl
        · intro h
          cases h
    | ok u =>
        have hpw := pollIterPrivacy_writes E i { st with acts := st.acts ++ [(i, 1)] } st2
        constructor
        · intro h
          exact hpw.1 h
        · intro h
          exact hpw.2 h
  · rw [if_neg hr]
    exact pollIterPrivacy_writes E i st st2

theorem pollIter_writes (E : PollEnv) (i : Nat) (st st2 : FlowState) :
    (pollIter E i st = IterOut.cont st2 → st2.writes = st.writes) ∧
    (pollIter E i st = IterOut.ret FlowOutcome.blocked st2 → st2.writes = st.writes) := by
  unfold pollIter
  by_cases hv : E.verif i
  · rw [if_pos hv]
    constructor
    · intro h
      cases h
    · intro h
      cases h
      rfl
  · rw [if_neg hv]
    by_cases hre : E.recov i
    · rw [if_pos hre]
      dsimp only
      cases hcn : click_next (E.cnRecov i) with
      | error e =>
          constructor
          · intro h
            cases h
            rfl
          · intro h
            cases h
      | ok u =>
          have hrw := pollIterReview_writes E i
            { st with recovery_email := some (generate_recovery_email (E.g i)),
                      acts := st.acts ++ [(i, 0)] } st2
          constructor
          · intro h
            exact hrw.1 h
          · intro h
            exact absurd h hrw.2
    · rw [if_neg hre]
      have hrw := pollIterReview_writes E i st st2
      exact ⟨hrw.1, fun h => absurd h hrw.2⟩

theorem pollLoop_blocked_writes (E : PollEnv) (n : Nat) :
    ∀ (i : Nat) (st st2 : FlowState),
      pollLoop E i n st = RunOut.blocked st2 → st2.writes = st.writes := by
  induction n with
  | zero =>
      intro i st st2 h
      simp [pollLoop] at h
  | succ n ih =>
      intro i st st2 h
      unfold pollLoop at h
      cases hit : pollIter E i st with
      | ret o st3 =>
          rw [hit] at h
          cases o
          · dsimp only at h
            cases h
            exact (pollIter_writes E i st st2).2 hit
          · dsimp only at h
            cases h
      | cont st3 =>
          rw [hit] at h
          dsimp only at h
          have h1 := ih (i + 1) st3 st2 h
          have h2 := (pollIter_writes E i st st3).1 hit
          rw [h1, h2]

/-- C2: whenever the verification-block detector returns true during the
polling loop, that iteration returns immediately with the state untouched —
no further stage fillers run — and an attempt whose polling loop ends
blocked has appended zero credential records to the sink. -/
theorem c2_verification_block_aborts :
    (∀ (E : PollEnv) (i : Nat) (st : FlowState),
        E.verif i = true → pollIter E i st = IterOut.ret FlowOutcome.blocked st) ∧
    (∀ (E : PollEnv) (st2 : FlowState),
        poll_verification_loop E = RunOut.blocked st2 → st2.writes = []) := by
  constructor
  · intro E i st h
    unfold pollIter
    rw [if_pos h]
  · intro E st2 h
    exact pollLoop_blocked_writes E 90 0 _ st2 h

/-- A polling script on which the verification-block page is detected at the
very first iteration. -/
def pollBlockEnv : PollEnv :=
  { verif := fun _ => true, recov := fun _ => false, review := fun _ => false,
    privacy := fun _ => false,
    recovFill := fun _ => { selCount := fun _ => .ok 0, selElem := fun _ => okElem },
    cnRecov := fun _ => cnFound, cnReview := fun _ => cnFound,
    privacyHandled := fun _ => false, g := fun _ _ => 0,
    cfgUsername := "u".toList, cfgPassword := "p".toList }

theorem c2_verification_block_aborts_witness :
    pollIter pollBlockEnv 0 ⟨none, [], []⟩ = IterOut.ret FlowOutcome.blocked ⟨none, [], []⟩ ∧
    FlowState.writes ⟨none, [], []⟩ = [] :=
  ⟨c2_verification_block_aborts.1 pollBlockEnv 0 ⟨none, [], []⟩ (by decide),
   c2_verification_block_aborts.2 pollBlockEnv ⟨none, [], []⟩ (by decide)⟩

/- ----------------------------------------------------------------
C1: the success record after a username-taken retry
---------------------------------------------------------------- -/

/-- A username-page script: the page is detected at once, the fills succeed,
every advance click succeeds, the service reports the first submission as
taken and accepts the second, and no draw randomness (suffix "00000"). -/
def c1UEnv : UsernameEnv :=
  { detCount := fun _ _ => .ok 1,
    selLoc := fun _ _ => .ok okElem,
    labCount := fun _ _ => .ok 0,
    labElem := fun _ _ => okElem,
    cn := fun _ => cnFound,
    takenCount := fun a _ => .ok (if a = 0 then 1 else 0),
    g := fun _ => 0 }

/-- A recommendation-screen script on which the screen never appears. -/
def c1REnv : RecEnv :=
  { headingCount := fun _ _ => .ok 0, radioInputsCount := .ok 0,
    usernameRadioAll := .ok [], roleRadios := .ok [], cn := cnFound }

/-- C1, evaluated at the failing input: when the requested username "an" is
reported taken on the first submission and the suffixed retry "an00000" is
the value the service accepts, `maybe_fill_username_page` still returns a
bare True, the flow leaves `cfg["username"]` at "an" (no recommendation
screen appears), and the success record's local-part is the original "an" —
not the service-accepted "an00000" the claim requires. -/
theorem c1_success_record_username_bug :
    acceptedUsername c1UEnv ("an".toList) = some ("an00000".toList) ∧
    maybe_fill_username_page c1UEnv ("an".toList) = Except.ok true ∧
    username_flow_cfg c1UEnv c1REnv ("an".toList) = "an".toList ∧
    success_line (username_flow_cfg c1UEnv c1REnv ("an".toList)) ("Pw1@".toList)
        ("rec@getnada.com".toList) = "an@gmail.com|Pw1@|rec@getnada.com".toList ∧
    username_flow_cfg c1UEnv c1REnv ("an".toList) ≠ "an00000".toList := by
  refine ⟨by decide, by decide, by decide, by decide, by decide⟩
